import Mathlib

set_option maxRecDepth 4000

/-!
Verification of the npm-faves content script (src/scripts/content-script.js)
against its natural-language specification.

The script is shallowly embedded: the DOM fragment the script manages is the
list of injected toggle controls (elements with id npmFavesLink, in document
order), the durable favorite store is a function from package names to
optional records, and the JavaScript string operations used by
getPackageNameFromUrl are embedded as executable list functions.
-/

/-- A stored favorite record. Presence of a record in the store is the sole
source of truth for the favorited state (spec section 3); the metadata payload
is opaque to the content script, so a single field suffices here. -/
structure FaveRecord where
  name : String
  deriving Repr, DecidableEq

/-- The durable favorite store, keyed by package name. A package name is kept
as a character list because the identifier is sliced out of the page URL. -/
def Store : Type := List Char → Option FaveRecord

/-- Modelled from the spec: the function npmFaves.storage.getFave called at
content-script.js line 61 lives in a storage module that is not part of this
source tree. Spec section 4.1 specifies the operation get(identifier,
refreshFromRemote) returning a FavoriteRecord or absent: it looks up the
record for the identifier; the refresh flag only affects metadata freshness,
never presence. A lookup with an absent (null) identifier finds no record,
since every stored record has a never-empty string identifier. -/
def getFave (store : Store) (packageName : Option (List Char))
    (updateData : Bool) : Option FaveRecord :=
  match packageName, updateData with
  | none, _ => none
  | some key, _ => store key

/-- The empty store: no package is favorited. Used for concrete scenarios. -/
def emptyStore : Store := fun _ => none

/-- Helper for the splitter: prepend a character to the first part of a
partition (used when the scan consumes one ordinary character). -/
def consHead (c : Char) : List (List Char) → List (List Char)
  | [] => [[c]]
  | h :: t => (c :: h) :: t

/-- Fuel-indexed embedding of the JavaScript String.prototype.split with a
nonempty string separator, over character lists: the scan moves left to
right and at each position either consumes the leftmost occurrence of the
separator, closing the current part, or consumes one character into the
current part. The fuel only forces structural recursion; any fuel larger
than the length of the scanned list yields the same value. -/
def jsSplitF : Nat → List Char → List Char → List (List Char)
  | 0, _, _ => [[]]
  | fuel + 1, sep, s =>
    if sep ≠ [] ∧ sep.isPrefixOf s = true then
      [] :: jsSplitF fuel sep (s.drop sep.length)
    else
      match s with
      | [] => [[]]
      | c :: rest => consHead c (jsSplitF fuel sep rest)

/-- JavaScript split(sep) for a nonempty separator sep, over character
lists. -/
def jsSplit (sep s : List Char) : List (List Char) :=
  jsSplitF (s.length + 1) sep s

/-- The separator string "package/" used by getPackageNameFromUrl. -/
def pkgSep : List Char := "package/".data

/-- Embeds getPackageNameFromUrl (content-script.js lines 183 to 189): split
the current href on "package/"; when the split yields exactly two parts,
return the second part cut at the first question mark (index zero of its
split on "?"), otherwise return null. -/
def getPackageNameFromUrl (url : List Char) : Option (List Char) :=
  match jsSplit pkgSep url with
  | [_, second] => some ((jsSplit ['?'] second).headD [])
  | _ => none

/-- Number of starting positions of s at which the pattern sep occurs as a
contiguous substring (every position is counted, including overlapping
occurrences). -/
def occCountR (sep : List Char) : List Char → Nat
  | [] => 0
  | c :: rest =>
    (if sep.isPrefixOf (c :: rest) = true then 1 else 0) + occCountR sep rest

/-- A pattern has no border when no proper nonempty suffix of it is also one
of its own leading segments; such a pattern cannot overlap itself, so its
occurrences are pairwise disjoint. The separator "package/" has this
property. -/
def noBorder (sep : List Char) : Prop :=
  ∀ d, d < sep.length → 0 < d → ¬ ((sep.drop d).isPrefixOf sep = true)

/-- Joins a partition back with the separator between parts (the inverse
direction of the splitter, used to state its soundness). -/
def joinSep (sep : List Char) : List (List Char) → List Char
  | [] => []
  | [x] => x
  | x :: y :: rest => x ++ sep ++ joinSep sep (y :: rest)

/-- One regular-expression atom of the visibility-listener pattern: either a
literal character or the JavaScript dot (any character except a line
terminator). -/
inductive RChar where
  | lit (c : Char)
  | anyChar
  deriving Repr, DecidableEq

/-- Lift a literal string to a list of literal pattern atoms. -/
def litStr (s : String) : List RChar := s.data.map RChar.lit

/-- Line terminators, which the JavaScript regular-expression dot does not
match. -/
def isLineTerm (c : Char) : Bool :=
  c == '\n' || c == '\r' || c.val == 0x2028 || c.val == 0x2029

/-- Match a pattern against the beginning of a character list. -/
def matchHere : List RChar → List Char → Bool
  | [], _ => true
  | _ :: _, [] => false
  | RChar.lit c :: ps, x :: xs => c == x && matchHere ps xs
  | RChar.anyChar :: ps, x :: xs => !isLineTerm x && matchHere ps xs

/-- Unanchored regular-expression test: the pattern matches at some position
of the list (the semantics of RegExp.prototype.test). -/
def regexTest (p : List RChar) : List Char → Bool
  | [] => matchHere p []
  | c :: xs => matchHere p (c :: xs) || regexTest p xs

/-- The pattern of the visibility-change listener (content-script.js line
219). The two dots of the source pattern are unescaped, hence any-character
atoms. -/
def visPattern : List RChar :=
  litStr "https://www" ++ [RChar.anyChar] ++ litStr "npmjs" ++ [RChar.anyChar]
    ++ litStr "com/package/"

/-- The injected toggle control (the div with id npmFavesLink built by
getFaveButtonElement): its class attribute, the fave-action attribute of its
inner link, the link text and the icon name. -/
structure FaveButton where
  className : String
  action : String
  text : String
  icon : String
  deriving Repr, DecidableEq

/-- Embeds getFaveButtonElement (content-script.js lines 113 to 138): the
defaults describe the add control, and when toAddToFaves is false every
field is overridden to the remove control. -/
def getFaveButtonElement (toAddToFaves : Bool) : FaveButton :=
  if toAddToFaves then
    { className := "npmf_button npmf_confirm-button"
      action := "addToFaves"
      text := "Add to faves"
      icon := "add" }
  else
    { className := "npmf_button npmf_cancel-button"
      action := "removeFromFaves"
      text := "Remove from faves"
      icon := "delete" }

/-- Embeds createFavesButton (content-script.js lines 83 to 104) acting on
the list of injected controls in document order: the first control with id
npmFavesLink, if any, is removed from its parent, and a freshly built
control is appended. -/
def createFavesButton (toAddToFaves : Bool) (doc : List FaveButton) :
    List FaveButton :=
  let afterRemoval := match doc with
    | [] => []
    | _ :: rest => rest
  afterRemoval ++ [getFaveButtonElement toAddToFaves]

/-- Outcome of one run of addButtonToPage: the new list of injected
controls, the trace of storage lookups performed during the run (each entry
is the identifier passed to getFave), and the transient notification shown
to the user, if any. -/
structure RenderOutcome where
  doc : List FaveButton
  storeQueries : List (Option (List Char))
  notification : Option String
  deriving Repr, DecidableEq

/-- Embeds addButtonToPage (content-script.js lines 55 to 76): derive the
package name from the URL, query the store with it (second argument false:
no remote refresh), build the control from the presence of the record, and
show the message when it is truthy (a JavaScript empty string is falsy, so
it shows nothing). -/
def addButtonToPage (store : Store) (url : List Char)
    (message : Option String) (doc : List FaveButton) : RenderOutcome :=
  let packageName := getPackageNameFromUrl url
  let fave := getFave store packageName false
  let toAddToFaves := fave.isNone
  { doc := createFavesButton toAddToFaves doc
    storeQueries := [packageName]
    notification :=
      match message with
      | none => none
      | some m => if m = "" then none else some m }

/-- Embeds the disabling step of handleFaveLinkClick (content-script.js
lines 147 to 150): the first control with id npmFavesLink, if any, has its
class attribute overwritten with the disabled classes. -/
def disableFaveButton (doc : List FaveButton) : List FaveButton :=
  match doc with
  | [] => []
  | b :: rest => { b with className := "npmf_button npmf_disabled-button" } :: rest

/-- The wire payload sent over the message bus (spec section 6). -/
structure SyncMessage where
  action : String
  packageName : Option (List Char)
  deriving Repr, DecidableEq

/-- The response of the background coordinator to a click round trip. -/
structure MsgResponse where
  result : Bool
  deriving Repr, DecidableEq

/-- A JavaScript runtime error escaping a handler. Reading a property of an
undefined value raises a TypeError. -/
inductive JsError where
  | typeError
  deriving Repr, DecidableEq

/-- Observable events of the click handler, in program order: the disabling
of the existing control, and the transmission of the message. -/
inductive ClickEvent where
  | disable
  | send (m : SyncMessage)
  deriving Repr, DecidableEq

/-- Outcome of one run of handleFaveLinkClick for a given response of the
bus: the document after the synchronous disabling step, the message sent,
the event trace in program order, and the result of the asynchronous
response callback - either a re-render outcome or an escaped error. -/
structure ClickOutcome where
  docAfterDisable : List FaveButton
  sent : SyncMessage
  events : List ClickEvent
  callbackResult : Except JsError RenderOutcome

/-- Embeds handleFaveLinkClick (content-script.js lines 145 to 177).
The handler first disables the existing control, derives the package name,
reads the fave-action attribute of the clicked link (faveAction here; null
when absent), chooses the action and the success message, and transmits.
The response callback reads response.result - when the transmission failed
and the response is absent, that read raises a TypeError, which nothing in
the handler catches - replaces the message with the generic error text when
the result is falsy, and re-renders through addButtonToPage on the document
as left by the disabling step. -/
def handleFaveLinkClick (store : Store) (url : List Char)
    (faveAction : Option String) (doc : List FaveButton)
    (response : Option MsgResponse) : ClickOutcome :=
  let doc1 := disableFaveButton doc
  let packageName := getPackageNameFromUrl url
  let pair :=
    if faveAction = some "addToFaves" then
      ("add", "Package added to faves :)")
    else
      ("remove", "Package removed from faves :(")
  let message : SyncMessage := { action := pair.1, packageName := packageName }
  let callbackResult : Except JsError RenderOutcome :=
    match response with
    | none => Except.error JsError.typeError
    | some r =>
      let displayMessage := if !r.result then "An error ocurred :(" else pair.2
      Except.ok (addButtonToPage store url (some displayMessage) doc1)
  { docAfterDisable := doc1
    sent := message
    events :=
      (match doc with
        | [] => []
        | _ :: _ => [ClickEvent.disable]) ++ [ClickEvent.send message]
    callbackResult := callbackResult }

/-- Embeds the chrome.runtime.onMessage listener (content-script.js lines
205 to 211): when the received action is "remove" and its packageName
equals the identifier derived from the current URL, re-render with the
removed message; otherwise do nothing. -/
def onMessageListener (store : Store) (url : List Char)
    (doc : List FaveButton) (message : SyncMessage) : Option RenderOutcome :=
  if message.action = "remove" then
    if message.packageName = getPackageNameFromUrl url then
      some (addButtonToPage store url (some "Package removed from faves :(") doc)
    else none
  else none

/-- Embeds the visibilitychange listener (content-script.js lines 217 to
224): when the document is not hidden and the unanchored pattern of line 219
matches the current href, re-render with no message; otherwise do nothing. -/
def visibilityChangeListener (store : Store) (url : List Char)
    (doc : List FaveButton) (hidden : Bool) : Option RenderOutcome :=
  if !hidden then
    if regexTest visPattern url then
      some (addButtonToPage store url none doc)
    else none
  else none

/-- Embeds validatePageContent (content-script.js lines 28 to 30): the page
is valid exactly when the structural anchor, the tablist element, is
present. -/
def validatePageContent (tablistPresent : Bool) : Bool :=
  if tablistPresent then true else false

/-- Outcome of the top-level entry of the script: whether the stylesheet
links were injected, the render outcome when one happened, and the console
log emitted. The try-catch of lines 12 to 21 makes the entry total: every
branch returns an outcome instead of escaping. -/
structure InitOutcome where
  stylesInjected : Bool
  rendered : Option RenderOutcome
  logged : Option String
  deriving Repr, DecidableEq

/-- Embeds the top-level entry (content-script.js lines 12 to 21): when
validatePageContent holds, inject the styles and render; otherwise only log
that the url is not valid. -/
def contentScriptInit (store : Store) (url : List Char)
    (tablistPresent : Bool) (doc : List FaveButton) : InitOutcome :=
  if validatePageContent tablistPresent then
    { stylesInjected := true
      rendered := some (addButtonToPage store url none doc)
      logged := none }
  else
    { stylesInjected := false
      rendered := none
      logged := some ("The url is not valid for the content script: " ++ String.mk url) }

/-! ### Properties of the embedded JavaScript split -/

theorem isPrefixOf_exists (a b : List Char) :
    a.isPrefixOf b = true ↔ ∃ t, b = a ++ t := by
  induction a generalizing b with
  | nil => simp [List.isPrefixOf]
  | cons x xs ih =>
    cases b with
    | nil => simp [List.isPrefixOf]
    | cons y ys =>
      simp only [List.isPrefixOf, Bool.and_eq_true, beq_iff_eq, ih,
        List.cons_append, List.cons.injEq]
      constructor
      · rintro ⟨hxy, t, ht⟩
        exact ⟨t, hxy.symm, ht⟩
      · rintro ⟨t, h1, h2⟩
        exact ⟨h1.symm, t, h2⟩

theorem isPrefixOf_nil_of_ne (sep : List Char) (hsep : sep ≠ []) :
    sep.isPrefixOf ([] : List Char) = false := by
  cases sep with
  | nil => exact absurd rfl hsep
  | cons c t => rfl

theorem consHead_ne_nil (c : Char) (l : List (List Char)) : consHead c l ≠ [] := by
  cases l <;> simp [consHead]

theorem consHead_length (c : Char) (l : List (List Char)) (hl : l ≠ []) :
    (consHead c l).length = l.length := by
  cases l with
  | nil => exact absurd rfl hl
  | cons h t => rfl

theorem headD_consHead (c : Char) (l : List (List Char)) (hl : l ≠ []) :
    (consHead c l).headD [] = c :: l.headD [] := by
  cases l with
  | nil => exact absurd rfl hl
  | cons h t => rfl

theorem jsSplitF_succ (n : Nat) (sep s : List Char) :
    jsSplitF (n + 1) sep s =
      if sep ≠ [] ∧ sep.isPrefixOf s = true then
        [] :: jsSplitF n sep (s.drop sep.length)
      else
        match s with
        | [] => [[]]
        | c :: rest => consHead c (jsSplitF n sep rest) := rfl

theorem jsSplitF_ne_nil (f : Nat) (sep s : List Char) : jsSplitF f sep s ≠ [] := by
  cases f with
  | zero => simp [jsSplitF]
  | succ n =>
    rw [jsSplitF_succ]
    by_cases h : sep ≠ [] ∧ sep.isPrefixOf s = true
    · simp [h]
    · rw [if_neg h]
      cases s with
      | nil => simp
      | cons c rest => exact consHead_ne_nil c _

theorem length_pos_of_isPrefixOf (sep s : List Char) (hsep : sep ≠ [])
    (hp : sep.isPrefixOf s = true) : 0 < s.length := by
  cases s with
  | nil => rw [isPrefixOf_nil_of_ne sep hsep] at hp; cases hp
  | cons c rest => simp

theorem jsSplitF_fuel (f : Nat) : ∀ (g : Nat) (sep s : List Char),
    s.length < f → s.length < g → jsSplitF f sep s = jsSplitF g sep s := by
  induction f with
  | zero => intro g sep s hf _; omega
  | succ f ih =>
    intro g sep s hf hg
    cases g with
    | zero => omega
    | succ g =>
      rw [jsSplitF_succ, jsSplitF_succ]
      by_cases h : sep ≠ [] ∧ sep.isPrefixOf s = true
      · rw [if_pos h, if_pos h]
        have hs : 0 < s.length := length_pos_of_isPrefixOf sep s h.1 h.2
        have hsep1 : 0 < sep.length := by
          cases hsep : sep with
          | nil => exact absurd hsep h.1
          | cons c t => simp
        have hd : (s.drop sep.length).length = s.length - sep.length :=
          List.length_drop ..
        rw [ih g sep (s.drop sep.length) (by omega) (by omega)]
      · rw [if_neg h, if_neg h]
        cases s with
        | nil => rfl
        | cons c rest =>
          have hr : rest.length < f := by simp at hf; omega
          have hr2 : rest.length < g := by simp at hg; omega
          simp only
          rw [ih g sep rest hr hr2]

theorem jsSplit_nil (sep : List Char) (hsep : sep ≠ []) : jsSplit sep [] = [[]] := by
  show jsSplitF 1 sep [] = [[]]
  rw [jsSplitF_succ]
  rw [if_neg (by
    rintro ⟨h1, h2⟩
    rw [isPrefixOf_nil_of_ne sep h1] at h2
    cases h2)]

theorem jsSplit_pos (sep s : List Char) (hsep : sep ≠ [])
    (hp : sep.isPrefixOf s = true) :
    jsSplit sep s = [] :: jsSplit sep (s.drop sep.length) := by
  show jsSplitF (s.length + 1) sep s = _
  rw [jsSplitF_succ, if_pos ⟨hsep, hp⟩]
  congr 1
  have hs : 0 < s.length := length_pos_of_isPrefixOf sep s hsep hp
  have hsep1 : 0 < sep.length := by
    cases hc : sep with
    | nil => exact absurd hc hsep
    | cons c t => simp
  have hd : (s.drop sep.length).length = s.length - sep.length := List.length_drop ..
  exact jsSplitF_fuel s.length _ sep (s.drop sep.length) (by omega) (by omega)

theorem jsSplit_neg (sep : List Char) (c : Char) (rest : List Char)
    (hp : ¬ (sep.isPrefixOf (c :: rest) = true)) :
    jsSplit sep (c :: rest) = consHead c (jsSplit sep rest) := by
  show jsSplitF (rest.length + 1 + 1) sep (c :: rest) = _
  rw [jsSplitF_succ, if_neg (by rintro ⟨h1, h2⟩; exact hp h2)]
  rfl

theorem jsSplit_ne_nil (sep s : List Char) : jsSplit sep s ≠ [] :=
  jsSplitF_ne_nil _ sep s

theorem joinSep_consHead (sep : List Char) (c : Char) (l : List (List Char))
    (hl : l ≠ []) : joinSep sep (consHead c l) = c :: joinSep sep l := by
  cases l with
  | nil => exact absurd rfl hl
  | cons h t =>
    cases t with
    | nil => rfl
    | cons y r => rfl

theorem joinSep_jsSplit_aux (sep : List Char) (hsep : sep ≠ []) :
    ∀ (n : Nat) (s : List Char), s.length ≤ n →
      joinSep sep (jsSplit sep s) = s := by
  intro n
  induction n with
  | zero =>
    intro s hs
    have : s = [] := List.eq_nil_of_length_eq_zero (Nat.le_zero.mp hs)
    subst this
    rw [jsSplit_nil sep hsep]
    rfl
  | succ n ih =>
    intro s hs
    by_cases hp : sep.isPrefixOf s = true
    · rw [jsSplit_pos sep s hsep hp]
      obtain ⟨t, ht⟩ := (isPrefixOf_exists sep s).mp hp
      have hdrop : s.drop sep.length = t := by
        rw [ht]; exact List.drop_left sep t
      rw [hdrop]
      have hne := jsSplit_ne_nil sep t
      obtain ⟨x, xs, hxs⟩ : ∃ x xs, jsSplit sep t = x :: xs := by
        cases hl : jsSplit sep t with
        | nil => exact absurd hl hne
        | cons x xs => exact ⟨x, xs, rfl⟩
      rw [hxs]
      show [] ++ sep ++ joinSep sep (x :: xs) = s
      rw [← hxs]
      have hsep1 : 0 < sep.length := by
        cases hc : sep with
        | nil => exact absurd hc hsep
        | cons c r => simp
      have ht' : t.length ≤ n := by
        have := congrArg List.length ht
        simp [List.length_append] at this
        omega
      rw [ih t ht']
      simp [ht]
    · cases s with
      | nil => rw [jsSplit_nil sep hsep]; rfl
      | cons c rest =>
        rw [jsSplit_neg sep c rest hp]
        rw [joinSep_consHead sep c _ (jsSplit_ne_nil sep rest)]
        have hr : rest.length ≤ n := by simp at hs; omega
        rw [ih rest hr]

theorem joinSep_jsSplit (sep s : List Char) (hsep : sep ≠ []) :
    joinSep sep (jsSplit sep s) = s :=
  joinSep_jsSplit_aux sep hsep s.length s le_rfl

/-! ### Occurrence counting and the length law of the splitter -/

theorem occCountR_cons (sep : List Char) (c : Char) (rest : List Char) :
    occCountR sep (c :: rest) =
      (if sep.isPrefixOf (c :: rest) = true then 1 else 0) + occCountR sep rest := rfl

theorem occCountR_drop_of_no_match (sep : List Char) :
    ∀ (k : Nat) (s : List Char),
      (∀ i, i < k → ¬ (sep.isPrefixOf (s.drop i) = true)) →
      occCountR sep s = occCountR sep (s.drop k) := by
  intro k
  induction k with
  | zero => intro s _; rfl
  | succ k ih =>
    intro s h
    cases s with
    | nil => simp
    | cons c rest =>
      have h0 : ¬ (sep.isPrefixOf (c :: rest) = true) := by
        have := h 0 (Nat.succ_pos k)
        simpa using this
      rw [occCountR_cons, if_neg h0, List.drop_succ_cons]
      rw [Nat.zero_add]
      apply ih
      intro i hi
      have := h (i + 1) (Nat.succ_lt_succ hi)
      simpa [List.drop_succ_cons] using this

theorem border_of_overlap (sep s : List Char) (hp0 : sep.isPrefixOf s = true)
    (d : Nat) (hd0 : 0 < d) (hdL : d < sep.length)
    (hpd : sep.isPrefixOf (s.drop d) = true) :
    (sep.drop d).isPrefixOf sep = true := by
  obtain ⟨t, ht⟩ := (isPrefixOf_exists sep s).mp hp0
  obtain ⟨u, hu⟩ := (isPrefixOf_exists sep (s.drop d)).mp hpd
  have hsd : s.drop d = sep.drop d ++ t := by
    rw [ht]
    exact List.drop_append_of_le_length (Nat.le_of_lt hdL)
  have heq : sep.drop d ++ t = sep ++ u := by rw [← hsd, hu]
  have hm : (sep.drop d).length = sep.length - d := List.length_drop ..
  have htake : (sep.drop d ++ t).take (sep.drop d).length = sep.drop d :=
    List.take_left ..
  have htake2 : (sep ++ u).take (sep.drop d).length = sep.take (sep.drop d).length :=
    List.take_append_of_le_length (by omega)
  have hkey : sep.drop d = sep.take (sep.drop d).length := by
    calc sep.drop d = (sep.drop d ++ t).take (sep.drop d).length := htake.symm
      _ = (sep ++ u).take (sep.drop d).length := by rw [heq]
      _ = sep.take (sep.drop d).length := htake2
  rw [isPrefixOf_exists]
  refine ⟨sep.drop (sep.drop d).length, ?_⟩
  conv_lhs => rw [← List.take_append_drop (sep.drop d).length sep]
  rw [← hkey]

theorem occCountR_pos_step (sep : List Char) (hsep : sep ≠ []) (hnb : noBorder sep)
    (s : List Char) (hp : sep.isPrefixOf s = true) :
    occCountR sep s = 1 + occCountR sep (s.drop sep.length) := by
  cases s with
  | nil => rw [isPrefixOf_nil_of_ne sep hsep] at hp; cases hp
  | cons c rest =>
    rw [occCountR_cons, if_pos hp]
    congr 1
    obtain ⟨m, hm⟩ : ∃ m, sep.length = m + 1 := by
      cases hc : sep with
      | nil => exact absurd hc hsep
      | cons x xs => exact ⟨xs.length, by simp⟩
    rw [hm, List.drop_succ_cons]
    apply occCountR_drop_of_no_match
    intro i hi hmatch
    have hmatch2 : sep.isPrefixOf ((c :: rest).drop (i + 1)) = true := by
      rw [List.drop_succ_cons]; exact hmatch
    have hb := border_of_overlap sep (c :: rest) hp (i + 1) (Nat.succ_pos i)
      (by omega) hmatch2
    exact hnb (i + 1) (by omega) (Nat.succ_pos i) hb

theorem jsSplit_length (sep : List Char) (hsep : sep ≠ []) (hnb : noBorder sep) :
    ∀ (n : Nat) (s : List Char), s.length ≤ n →
      (jsSplit sep s).length = occCountR sep s + 1 := by
  intro n
  induction n with
  | zero =>
    intro s hs
    have : s = [] := List.eq_nil_of_length_eq_zero (Nat.le_zero.mp hs)
    subst this
    rw [jsSplit_nil sep hsep]
    rfl
  | succ n ih =>
    intro s hs
    by_cases hp : sep.isPrefixOf s = true
    · rw [jsSplit_pos sep s hsep hp, List.length_cons]
      rw [occCountR_pos_step sep hsep hnb s hp]
      have hs0 : 0 < s.length := length_pos_of_isPrefixOf sep s hsep hp
      have hsep1 : 0 < sep.length := by
        cases hc : sep with
        | nil => exact absurd hc hsep
        | cons x xs => simp
      have hd : (s.drop sep.length).length = s.length - sep.length := List.length_drop ..
      rw [ih (s.drop sep.length) (by omega)]
      omega
    · cases s with
      | nil =>
        rw [jsSplit_nil sep hsep]
        rfl
      | cons c rest =>
        rw [jsSplit_neg sep c rest hp]
        rw [consHead_length c _ (jsSplit_ne_nil sep rest)]
        have hr : rest.length ≤ n := by simp at hs; omega
        rw [ih rest hr, occCountR_cons, if_neg hp]
        omega

theorem jsSplit_single_headD (c0 : Char) (s : List Char) :
    (jsSplit [c0] s).headD [] = s.takeWhile (fun c => c != c0) := by
  induction s with
  | nil =>
    rw [jsSplit_nil [c0] (by simp)]
    rfl
  | cons c rest ih =>
    by_cases hc : c0 = c
    · have hp : [c0].isPrefixOf (c :: rest) = true := by
        simp [List.isPrefixOf, hc]
      rw [jsSplit_pos [c0] (c :: rest) (by simp) hp]
      simp [List.takeWhile_cons, hc]
    · have hp : ¬ ([c0].isPrefixOf (c :: rest) = true) := by
        simp [List.isPrefixOf]
        exact fun h => absurd h hc
      rw [jsSplit_neg [c0] c rest hp, headD_consHead c _ (jsSplit_ne_nil [c0] rest), ih]
      simp [List.takeWhile_cons]
      rw [if_neg (fun h => hc h.symm)]

theorem pkgSep_ne_nil : pkgSep ≠ [] := by decide

theorem pkgSep_noBorder : noBorder pkgSep := by
  unfold noBorder
  decide

theorem getPackageNameFromUrl_none_iff (url : List Char) :
    getPackageNameFromUrl url = none ↔ (jsSplit pkgSep url).length ≠ 2 := by
  unfold getPackageNameFromUrl
  cases h : jsSplit pkgSep url with
  | nil => simp
  | cons a t =>
    cases t with
    | nil => simp
    | cons b t2 =>
      cases t2 with
      | nil => simp
      | cons x t3 => simp

/-! ### Helper facts about rendering -/

theorem createFavesButton_length (b : Bool) (doc : List FaveButton)
    (h : doc.length ≤ 1) : (createFavesButton b doc).length = 1 := by
  cases doc with
  | nil => rfl
  | cons x rest =>
    cases rest with
    | nil => rfl
    | cons y r => simp at h

theorem addButtonToPage_doc_length (store : Store) (url : List Char)
    (msg : Option String) (doc : List FaveButton) (h : doc.length ≤ 1) :
    ((addButtonToPage store url msg doc).doc).length = 1 :=
  createFavesButton_length _ doc h

/-! ### The claims -/

/-- C10: for every URL string, getPackageNameFromUrl returns absent unless the
substring "package/" occurs exactly once in the URL; when it occurs exactly
once, it returns the text after "package/" truncated at the first question
mark, so query strings are stripped while fragments and any later path
segments (including scoped-package slashes) are retained in the returned
identifier. -/
theorem C10_package_name_extraction (url : List Char) :
    (getPackageNameFromUrl url = none ↔ occCountR pkgSep url ≠ 1) ∧
    (∀ r, getPackageNameFromUrl url = some r →
      ∃ pre post, url = pre ++ pkgSep ++ post ∧ occCountR pkgSep url = 1 ∧
        r = post.takeWhile (fun c => c != '?')) := by
  have hlen := jsSplit_length pkgSep pkgSep_ne_nil pkgSep_noBorder url.length url le_rfl
  constructor
  · rw [getPackageNameFromUrl_none_iff]
    omega
  · intro r hr
    unfold getPackageNameFromUrl at hr
    cases h : jsSplit pkgSep url with
    | nil => rw [h] at hr; cases hr
    | cons a t =>
      cases t with
      | nil => rw [h] at hr; cases hr
      | cons b t2 =>
        cases t2 with
        | nil =>
          rw [h] at hr
          simp only [Option.some.injEq] at hr
          refine ⟨a, b, ?_, ?_, ?_⟩
          · have hj := joinSep_jsSplit pkgSep url pkgSep_ne_nil
            rw [h] at hj
            exact hj.symm
          · rw [h] at hlen
            simp at hlen
            omega
          · rw [← hr, jsSplit_single_headD]
        | cons x t3 => rw [h] at hr; cases hr

/-- Witness for C10 at a concrete address: a scoped package page with a query
string yields the scoped name with the query stripped, and the address
decomposes around a unique occurrence of "package/". -/
theorem C10_package_name_extraction_witness :
    getPackageNameFromUrl
        "https://www.npmjs.com/package/@npmfaves/demo?activeTab=readme".data =
      some "@npmfaves/demo".data ∧
    ∃ pre post,
      "https://www.npmjs.com/package/@npmfaves/demo?activeTab=readme".data =
        pre ++ pkgSep ++ post ∧
      occCountR pkgSep
        "https://www.npmjs.com/package/@npmfaves/demo?activeTab=readme".data = 1 ∧
      "@npmfaves/demo".data = post.takeWhile (fun c => c != '?') := by
  constructor
  · decide
  · exact (C10_package_name_extraction _).2 _ (by decide)

/-- C1: every run of addButtonToPage queries the store exactly once, with the
identifier freshly derived from the URL, and the injected control is the add
control (fave-action addToFaves) when the store answers absent and the remove
control (fave-action removeFromFaves) when a record is present; no prior
response payload enters the decision. -/
theorem C1_render_reflects_store (store : Store) (url : List Char)
    (msg : Option String) (doc : List FaveButton) :
    (addButtonToPage store url msg doc).storeQueries = [getPackageNameFromUrl url] ∧
    (getFave store (getPackageNameFromUrl url) false = none →
      (addButtonToPage store url msg doc).doc.getLast? =
        some (getFaveButtonElement true) ∧
      (getFaveButtonElement true).action = "addToFaves") ∧
    (∀ rec, getFave store (getPackageNameFromUrl url) false = some rec →
      (addButtonToPage store url msg doc).doc.getLast? =
        some (getFaveButtonElement false) ∧
      (getFaveButtonElement false).action = "removeFromFaves") := by
  refine ⟨rfl, ?_, ?_⟩
  · intro h
    refine ⟨?_, rfl⟩
    simp only [addButtonToPage, createFavesButton, h, Option.isNone_none]
    exact List.getLast?_concat _
  · intro rec h
    refine ⟨?_, rfl⟩
    simp only [addButtonToPage, createFavesButton, h, Option.isNone_some]
    exact List.getLast?_concat _

/-- Witness for C1: with the empty store and the left-pad page, the render
queries the store once with the derived identifier and injects the add
control. -/
theorem C1_render_reflects_store_witness :
    (addButtonToPage emptyStore "https://www.npmjs.com/package/left-pad".data
        none []).storeQueries =
      [getPackageNameFromUrl "https://www.npmjs.com/package/left-pad".data] ∧
    (addButtonToPage emptyStore "https://www.npmjs.com/package/left-pad".data
        none []).doc.getLast? = some (getFaveButtonElement true) ∧
    (getFaveButtonElement true).action = "addToFaves" := by
  have h := C1_render_reflects_store emptyStore
    "https://www.npmjs.com/package/left-pad".data none []
  exact ⟨h.1, (h.2.1 (by decide)).1, (h.2.1 (by decide)).2⟩

/-- C2: rendering is idempotent on the DOM: for every N at least one, N runs
of the render routine in a row leave exactly one toggle control (element id
npmFavesLink) in the document, because createFavesButton removes any existing
control before inserting a fresh one. -/
theorem C2_render_idempotent (store : Store) (url : List Char)
    (msg : Option String) (doc : List FaveButton) (n : Nat)
    (hdoc : doc.length ≤ 1) (hn : 1 ≤ n) :
    ((fun d => (addButtonToPage store url msg d).doc)^[n] doc).length = 1 := by
  induction n generalizing doc with
  | zero => omega
  | succ n ih =>
    rw [Function.iterate_succ_apply]
    rcases Nat.eq_zero_or_pos n with h0 | hpos
    · subst h0
      rw [Function.iterate_zero_apply]
      exact addButtonToPage_doc_length store url msg doc hdoc
    · exact ih _ (addButtonToPage_doc_length store url msg doc hdoc).le hpos

/-- Witness for C2: three renders in a row starting from an empty document
leave exactly one control. -/
theorem C2_render_idempotent_witness :
    ((fun d => (addButtonToPage emptyStore
        "https://www.npmjs.com/package/left-pad".data none d).doc)^[3] []).length = 1 :=
  C2_render_idempotent emptyStore "https://www.npmjs.com/package/left-pad".data
    none [] 3 (by decide) (by decide)

/-- C3: a bus message whose action is "remove" and whose packageName equals
the identifier derived from the current URL makes the listener re-render at
once through addButtonToPage with the removed message, and that message is
shown as the notification. -/
theorem C3_broadcast_remove_rerenders (store : Store) (url : List Char)
    (doc : List FaveButton) (message : SyncMessage)
    (h1 : message.action = "remove")
    (h2 : message.packageName = getPackageNameFromUrl url) :
    onMessageListener store url doc message =
      some (addButtonToPage store url (some "Package removed from faves :(") doc) ∧
    (addButtonToPage store url
        (some "Package removed from faves :(") doc).notification =
      some "Package removed from faves :(" := by
  constructor
  · unfold onMessageListener
    rw [if_pos h1, if_pos h2]
  · rfl

/-- Witness for C3: a remove broadcast for left-pad reaching the left-pad
page re-renders with the removed message. -/
theorem C3_broadcast_remove_rerenders_witness :
    onMessageListener emptyStore "https://www.npmjs.com/package/left-pad".data []
        { action := "remove", packageName := some "left-pad".data } =
      some (addButtonToPage emptyStore "https://www.npmjs.com/package/left-pad".data
        (some "Package removed from faves :(") []) ∧
    (addButtonToPage emptyStore "https://www.npmjs.com/package/left-pad".data
        (some "Package removed from faves :(") []).notification =
      some "Package removed from faves :(" :=
  C3_broadcast_remove_rerenders emptyStore
    "https://www.npmjs.com/package/left-pad".data []
    { action := "remove", packageName := some "left-pad".data } rfl (by decide)

/-- Counterexample for C4: when the transmission fails and the response is
absent, the callback of handleFaveLinkClick reads the result field of an
undefined value, so a TypeError escapes instead of being caught and logged at
the call site - there is no try-catch around the transmission or inside the
callback. -/
theorem C4_counterexample_absent_response_throws :
    (handleFaveLinkClick emptyStore "https://www.npmjs.com/package/left-pad".data
        (some "addToFaves") [getFaveButtonElement true] none).callbackResult =
      Except.error JsError.typeError := rfl

/-- C4 amended: if the transmission fails (absent response), the response
callback throws a TypeError - the read of response.result - which nothing in
handleFaveLinkClick catches; the re-render never runs, and the toggle control
is left in the disabled state set before the transmission, with no further
recovery attempt. -/
theorem C4_channel_failure_leaves_disabled (store : Store) (url : List Char)
    (faveAction : Option String) (doc : List FaveButton) (h : doc ≠ []) :
    (handleFaveLinkClick store url faveAction doc none).callbackResult =
      Except.error JsError.typeError ∧
    ((handleFaveLinkClick store url faveAction doc none).docAfterDisable.head?).map
        FaveButton.className = some "npmf_button npmf_disabled-button" := by
  cases doc with
  | nil => exact absurd rfl h
  | cons b rest => exact ⟨rfl, rfl⟩

/-- Witness for the amended C4: a concrete click on the add control of the
left-pad page with an absent response leaves the error escaped and the
control disabled. -/
theorem C4_channel_failure_leaves_disabled_witness :
    (handleFaveLinkClick emptyStore "https://www.npmjs.com/package/left-pad".data
        (some "addToFaves") [getFaveButtonElement true] none).callbackResult =
      Except.error JsError.typeError ∧
    ((handleFaveLinkClick emptyStore "https://www.npmjs.com/package/left-pad".data
        (some "addToFaves") [getFaveButtonElement true] none).docAfterDisable.head?).map
        FaveButton.className = some "npmf_button npmf_disabled-button" :=
  C4_channel_failure_leaves_disabled emptyStore
    "https://www.npmjs.com/package/left-pad".data (some "addToFaves")
    [getFaveButtonElement true] (by decide)

/-- Counterexample for C5: on an address without "package/" the identifier is
absent, yet initialization does not abort: addButtonToPage still queries the
store - with the absent identifier - and still injects the add control. -/
theorem C5_counterexample_render_despite_absent_identifier :
    getPackageNameFromUrl "https://www.npmjs.com/".data = none ∧
    (addButtonToPage emptyStore "https://www.npmjs.com/".data none []).storeQueries =
      [none] ∧
    (addButtonToPage emptyStore "https://www.npmjs.com/".data none []).doc =
      [getFaveButtonElement true] := by
  refine ⟨by decide, by decide, by decide⟩

/-- C5 amended: if getPackageNameFromUrl returns absent, addButtonToPage does
not abort: the store is still queried, with the absent identifier, and since
the store holds no record for an absent identifier the add control is
injected; only the try-catch keeps failures of this path from escaping. -/
theorem C5_absent_identifier_still_renders (store : Store) (url : List Char)
    (msg : Option String) (doc : List FaveButton)
    (h : getPackageNameFromUrl url = none) :
    (addButtonToPage store url msg doc).storeQueries = [none] ∧
    (addButtonToPage store url msg doc).doc.getLast? =
      some (getFaveButtonElement true) ∧
    (getFaveButtonElement true).action = "addToFaves" := by
  refine ⟨?_, ?_, rfl⟩
  · simp only [addButtonToPage, h]
  · simp only [addButtonToPage, createFavesButton, h, getFave, Option.isNone_none]
    exact List.getLast?_concat _

/-- Witness for the amended C5: the npm home page address yields an absent
identifier, one store query with the absent identifier, and an injected add
control. -/
theorem C5_absent_identifier_still_renders_witness :
    (addButtonToPage emptyStore "https://www.npmjs.com/".data none []).storeQueries =
      [none] ∧
    (addButtonToPage emptyStore "https://www.npmjs.com/".data none []).doc.getLast? =
      some (getFaveButtonElement true) ∧
    (getFaveButtonElement true).action = "addToFaves" :=
  C5_absent_identifier_still_renders emptyStore "https://www.npmjs.com/".data
    none [] (by decide)

/-- C6: the re-render message of a click round trip is determined by the
action sent and the result field of the response: an add action with a true
result yields "Package added to faves :)", a remove action with a true result
yields "Package removed from faves :(", and a false result yields the generic
error message instead of the success message. -/
theorem C6_click_outcome_messages (store : Store) (url : List Char)
    (faveAction : Option String) (doc : List FaveButton) (r : MsgResponse) :
    (faveAction = some "addToFaves" →
      (handleFaveLinkClick store url faveAction doc (some r)).sent.action = "add" ∧
      (r.result = true →
        (handleFaveLinkClick store url faveAction doc (some r)).callbackResult =
          Except.ok (addButtonToPage store url (some "Package added to faves :)")
            (disableFaveButton doc)) ∧
        (addButtonToPage store url (some "Package added to faves :)")
            (disableFaveButton doc)).notification = some "Package added to faves :)")) ∧
    (faveAction ≠ some "addToFaves" →
      (handleFaveLinkClick store url faveAction doc (some r)).sent.action = "remove" ∧
      (r.result = true →
        (handleFaveLinkClick store url faveAction doc (some r)).callbackResult =
          Except.ok (addButtonToPage store url (some "Package removed from faves :(")
            (disableFaveButton doc)) ∧
        (addButtonToPage store url (some "Package removed from faves :(")
            (disableFaveButton doc)).notification =
          some "Package removed from faves :(")) ∧
    (r.result = false →
      (handleFaveLinkClick store url faveAction doc (some r)).callbackResult =
        Except.ok (addButtonToPage store url (some "An error ocurred :(")
          (disableFaveButton doc)) ∧
      (addButtonToPage store url (some "An error ocurred :(")
          (disableFaveButton doc)).notification = some "An error ocurred :(") := by
  obtain ⟨res⟩ := r
  refine ⟨?_, ?_, ?_⟩
  · intro ha
    subst ha
    refine ⟨rfl, ?_⟩
    intro hr
    subst hr
    exact ⟨rfl, rfl⟩
  · intro ha
    refine ⟨?_, ?_⟩
    · simp only [handleFaveLinkClick, if_neg ha]
    · intro hr
      subst hr
      constructor
      · simp only [handleFaveLinkClick, if_neg ha]
        rfl
      · rfl
  · intro hr
    subst hr
    by_cases ha : faveAction = some "addToFaves"
    · subst ha
      exact ⟨rfl, rfl⟩
    · constructor
      · simp only [handleFaveLinkClick, if_neg ha]
        rfl
      · rfl

/-- Witness for C6 at concrete inputs: a successful add click shows the added
message, and a failed round trip shows the generic error message. -/
theorem C6_click_outcome_messages_witness :
    ((handleFaveLinkClick emptyStore "https://www.npmjs.com/package/left-pad".data
        (some "addToFaves") [getFaveButtonElement true]
        (some { result := true })).sent.action = "add" ∧
      (handleFaveLinkClick emptyStore "https://www.npmjs.com/package/left-pad".data
        (some "addToFaves") [getFaveButtonElement true]
        (some { result := true })).callbackResult =
        Except.ok (addButtonToPage emptyStore
          "https://www.npmjs.com/package/left-pad".data
          (some "Package added to faves :)")
          (disableFaveButton [getFaveButtonElement true]))) ∧
    (handleFaveLinkClick emptyStore "https://www.npmjs.com/package/left-pad".data
        (some "addToFaves") [getFaveButtonElement true]
        (some { result := false })).callbackResult =
      Except.ok (addButtonToPage emptyStore
        "https://www.npmjs.com/package/left-pad".data
        (some "An error ocurred :(")
        (disableFaveButton [getFaveButtonElement true])) := by
  have h1 := C6_click_outcome_messages emptyStore
    "https://www.npmjs.com/package/left-pad".data (some "addToFaves")
    [getFaveButtonElement true] { result := true }
  have h2 := C6_click_outcome_messages emptyStore
    "https://www.npmjs.com/package/left-pad".data (some "addToFaves")
    [getFaveButtonElement true] { result := false }
  exact ⟨⟨(h1.1 rfl).1, ((h1.1 rfl).2 rfl).1⟩, (h2.2.2 rfl).1⟩

/-- C7: the click handler disables the existing control before the message is
transmitted: in the event trace the disabling strictly precedes the send, and
the document as it stands at transmission time carries the disabled class on
the control. -/
theorem C7_disable_before_send (store : Store) (url : List Char)
    (faveAction : Option String) (doc : List FaveButton)
    (response : Option MsgResponse) (h : doc ≠ []) :
    (handleFaveLinkClick store url faveAction doc response).events =
      [ClickEvent.disable,
        ClickEvent.send (handleFaveLinkClick store url faveAction doc response).sent] ∧
    ((handleFaveLinkClick store url faveAction doc response).docAfterDisable.head?).map
        FaveButton.className = some "npmf_button npmf_disabled-button" := by
  cases doc with
  | nil => exact absurd rfl h
  | cons b rest => exact ⟨rfl, rfl⟩

/-- Witness for C7: a concrete click on the add control of the left-pad page
traces the disabling strictly before the send. -/
theorem C7_disable_before_send_witness :
    (handleFaveLinkClick emptyStore "https://www.npmjs.com/package/left-pad".data
        (some "addToFaves") [getFaveButtonElement true]
        (some { result := true })).events =
      [ClickEvent.disable,
        ClickEvent.send (handleFaveLinkClick emptyStore
          "https://www.npmjs.com/package/left-pad".data (some "addToFaves")
          [getFaveButtonElement true] (some { result := true })).sent] ∧
    ((handleFaveLinkClick emptyStore "https://www.npmjs.com/package/left-pad".data
        (some "addToFaves") [getFaveButtonElement true]
        (some { result := true })).docAfterDisable.head?).map
        FaveButton.className = some "npmf_button npmf_disabled-button" :=
  C7_disable_before_send emptyStore "https://www.npmjs.com/package/left-pad".data
    (some "addToFaves") [getFaveButtonElement true] (some { result := true })
    (by decide)

/-- C8: when the structural anchor (the tablist) is absent, the entry point
injects nothing - no styles, no control - and only logs the condition; the
outcome type of the embedded entry is total, matching the try-catch that
keeps any error from escaping to the host. -/
theorem C8_missing_anchor_skips_init (store : Store) (url : List Char)
    (tablistPresent : Bool) (doc : List FaveButton) (h : tablistPresent = false) :
    (contentScriptInit store url tablistPresent doc).stylesInjected = false ∧
    (contentScriptInit store url tablistPresent doc).rendered = none ∧
    (contentScriptInit store url tablistPresent doc).logged =
      some ("The url is not valid for the content script: " ++ String.mk url) := by
  subst h
  exact ⟨rfl, rfl, rfl⟩

/-- Witness for C8: with the anchor missing on the left-pad page nothing is
injected and the condition is logged. -/
theorem C8_missing_anchor_skips_init_witness :
    (contentScriptInit emptyStore "https://www.npmjs.com/package/left-pad".data
        false []).stylesInjected = false ∧
    (contentScriptInit emptyStore "https://www.npmjs.com/package/left-pad".data
        false []).rendered = none ∧
    (contentScriptInit emptyStore "https://www.npmjs.com/package/left-pad".data
        false []).logged =
      some ("The url is not valid for the content script: " ++
        String.mk "https://www.npmjs.com/package/left-pad".data) :=
  C8_missing_anchor_skips_init emptyStore
    "https://www.npmjs.com/package/left-pad".data false [] rfl

/-- C9: on a visibility change where the document becomes visible, the
listener re-renders through addButtonToPage with no status message exactly
when the current address matches the item-page pattern of the source, and
does nothing otherwise. -/
theorem C9_visibility_rerender_iff_pattern (store : Store) (url : List Char)
    (doc : List FaveButton) (hidden : Bool) (h : hidden = false) :
    (regexTest visPattern url = true →
      visibilityChangeListener store url doc hidden =
        some (addButtonToPage store url none doc) ∧
      (addButtonToPage store url none doc).notification = none) ∧
    (regexTest visPattern url = false →
      visibilityChangeListener store url doc hidden = none) := by
  subst h
  constructor
  · intro hm
    constructor
    · simp only [visibilityChangeListener, hm]
      rfl
    · rfl
  · intro hm
    simp only [visibilityChangeListener, hm]
    rfl

/-- Witness for C9: on becoming visible on the left-pad page, whose address
matches the pattern, the listener re-renders with no message. -/
theorem C9_visibility_rerender_iff_pattern_witness :
    visibilityChangeListener emptyStore
        "https://www.npmjs.com/package/left-pad".data [] false =
      some (addButtonToPage emptyStore
        "https://www.npmjs.com/package/left-pad".data none []) ∧
    (addButtonToPage emptyStore "https://www.npmjs.com/package/left-pad".data
        none []).notification = none :=
  (C9_visibility_rerender_iff_pattern emptyStore
    "https://www.npmjs.com/package/left-pad".data [] false rfl).1 (by decide)
